import Mathlib

/-!
# Verification development for the juju control-plane sample

Shallow embedding of

* `src/state/ipaddresses.go` : the IP-address resource entity and the transaction
  operations it submits to the state store;
* `src/cmd/juju/action/do.go` : the `juju do` command (`DoCommand.Init`, `DoCommand.Run`);
* the facade client exercised by `src/api/service/client_test.go`.
-/

namespace Juju

/-! ## State store -/

/-- AddressState is `type AddressState string`. -/
abbrev AddressState := String

/-- AddressStateUnknown is the initial state an IP address is created with. -/
def AddressStateUnknown : AddressState := ""

/-- AddressStateAllocated: the address has been allocated by the provider. -/
def AddressStateAllocated : AddressState := "allocated"

/-- AddressStateUnvailable (spelled as in the source): allocating the address failed. -/
def AddressStateUnvailable : AddressState := "unavailable"

/-- The persisted document of an IP address. `AddressType` is the source field `Type`
(`network.AddressType`, a string type); `Scope` is `network.Scope`, a string type. -/
structure ipaddressDoc where
  DocID : String
  EnvUUID : String
  SubnetId : String
  MachineId : String
  InterfaceId : String
  Value : String
  AddressType : String
  Scope : String
  State : AddressState
deriving DecidableEq, Repr

/-- A field that is tagged `omitempty` is absent from the stored document when empty. -/
def omitempty (v : String) : Option String :=
  if v = "" then none else some v

/-- Read a field of the stored document by its BSON key (struct tags of `ipaddressDoc`;
an untagged field is keyed by its lowercased name). -/
def ipaddressDoc.field (d : ipaddressDoc) (key : String) : Option String :=
  if key = "_id" then some d.DocID
  else if key = "env-uuid" then some d.EnvUUID
  else if key = "subnetid" then omitempty d.SubnetId
  else if key = "machineid" then omitempty d.MachineId
  else if key = "interfaceid" then omitempty d.InterfaceId
  else if key = "value" then some d.Value
  else if key = "type" then some d.AddressType
  else if key = "networkscope" then omitempty d.Scope
  else if key = "state" then some d.State
  else none

/-- Assign a field of the stored document by its BSON key, as `$set` does. A key that is
no field of `ipaddressDoc` is invisible in the document as the entity reads it back, and
`_id` is immutable. -/
def ipaddressDoc.setField (d : ipaddressDoc) (key : String) (v : String) : ipaddressDoc :=
  if key = "env-uuid" then { d with EnvUUID := v }
  else if key = "subnetid" then { d with SubnetId := v }
  else if key = "machineid" then { d with MachineId := v }
  else if key = "interfaceid" then { d with InterfaceId := v }
  else if key = "value" then { d with Value := v }
  else if key = "type" then { d with AddressType := v }
  else if key = "networkscope" then { d with Scope := v }
  else if key = "state" then { d with State := v }
  else d

/-- The condition a query document puts on one field: `bson.D{{key, v}}` is equality,
`bson.D{{key, bson.D{{"$in", vs}}}}` is membership. -/
inductive Cond where
  | eq (v : String)
  | isIn (vs : List String)
deriving DecidableEq, Repr

/-- Whether a field value (absent when `none`) meets a condition. -/
def Cond.holds : Cond → Option String → Bool
  | .eq v, some x => x == v
  | .isIn vs, some x => vs.contains x
  | _, none => false

/-- The transaction operation `txn.Op`, restricted to the members the entity uses:
collection `C`, document `Id`, optional `Assert` query, optional `Update` (the
assignments under `$set`), and the `Remove` flag. -/
structure Op where
  C : String
  Id : String
  Assert : Option (List (String × Cond))
  Update : Option (List (String × String))
  Remove : Bool
deriving DecidableEq, Repr

/-- The store: per collection name, the documents by `_id`. -/
abbrev Store := String → String → Option ipaddressDoc

/-- Errors of the store: a precondition failure (the transaction is aborted) and a
missing target document. -/
inductive TxnError where
  | aborted
  | notFound
deriving DecidableEq, Repr

/-- Modelled from the spec: the name of the collection of IP-address documents; the
constant `ipaddressesC` is declared not among the files embedded here, and only its identity
matters. -/
def ipaddressesC : String := "ipaddresses"

/-- Modelled from the spec: the per-operation check of `runTransaction` (State Store,
section 4.1), whose code is not among the files embedded here. The target document must exist
(otherwise "document not found"), and the optional precondition is a predicate over the
document's current field values whose failure is the distinct precondition failure. -/
def checkOp (st : Store) (op : Op) : Option TxnError :=
  match st op.C op.Id with
  | none => some TxnError.notFound
  | some d =>
    match op.Assert with
    | none => none
    | some q => if q.all (fun kc => kc.2.holds (d.field kc.1)) then none else some TxnError.aborted

/-- Modelled from the spec: the mutation of one operation (section 4.1): a removal, or
field assignments on the target document. -/
def applyOp (st : Store) (op : Op) : Store :=
  if op.Remove then
    fun c id => if c = op.C ∧ id = op.Id then none else st c id
  else
    match op.Update with
    | none => st
    | some sets =>
      fun c id =>
        if c = op.C ∧ id = op.Id then
          (st c id).map (fun d => sets.foldl (fun acc kv => acc.setField kv.1 kv.2) d)
        else st c id

/-- Modelled from the spec: `State.runTransaction` (State Store, section 4.1), whose code
is not among the files embedded here. All operations are applied as one atomic unit: either
every operation's precondition holds and every mutation commits, or none commits and the
first failure is reported. The result is the store afterwards and the error, if any. -/
def runTransaction (st : Store) (ops : List Op) : Store × Option TxnError :=
  match ops.findSome? (checkOp st) with
  | some e => (st, some e)
  | none => (ops.foldl applyOp st, none)

/-! ## The IP-address entity -/

/-- IPAddress is the in-memory handle; `doc` is its snapshot of the document. The
pointer to the shared state is the store passed to each operation. -/
structure IPAddress where
  doc : ipaddressDoc
deriving DecidableEq, Repr

/-- The context each operation puts on an error (`errors.DeferredAnnotatef`), kept as
the format arguments rather than the rendered text. -/
inductive ErrContext where
  | cannotRemove (i : IPAddress)
  | cannotSetState (i : IPAddress) (newState : AddressState)
  | cannotAllocate (i : IPAddress) (machineId : String) (interfaceId : String)
deriving DecidableEq, Repr

/-- An annotated store error. -/
structure StateError where
  context : ErrContext
  cause : TxnError
deriving DecidableEq, Repr

/-- DeferredAnnotatef wraps a non-nil error with the context and leaves nil as nil. -/
def DeferredAnnotatef (a : ErrContext) (err : Option TxnError) : Option StateError :=
  err.map (fun e => { context := a, cause := e })

/-- The operations `IPAddress.Remove` submits. -/
def IPAddress.RemoveOps (i : IPAddress) : List Op :=
  [{ C := ipaddressesC, Id := i.doc.DocID, Assert := none, Update := none, Remove := true }]

/-- Remove removes a no-longer need IP address. -/
def IPAddress.Remove (i : IPAddress) (st : Store) : Store × Option StateError :=
  let r := runTransaction st i.RemoveOps
  (r.1, DeferredAnnotatef (ErrContext.cannotRemove i) r.2)

/-- The operations `IPAddress.SetState` submits. -/
def IPAddress.SetStateOps (i : IPAddress) (newState : AddressState) : List Op :=
  let validStates := [AddressStateUnknown, newState]
  let unknownOrSame := [("state", Cond.isIn validStates)]
  [{ C := ipaddressesC, Id := i.doc.DocID, Assert := some unknownOrSame,
     Update := some [("state", newState)], Remove := false }]

/-- SetState sets the State of an IPAddress. -/
def IPAddress.SetState (i : IPAddress) (newState : AddressState) (st : Store) :
    Store × Option StateError :=
  let r := runTransaction st (i.SetStateOps newState)
  (r.1, DeferredAnnotatef (ErrContext.cannotSetState i newState) r.2)

/-- The operations `IPAddress.AllocateTo` submits. -/
def IPAddress.AllocateToOps (i : IPAddress) (machineId : String) (interfaceId : String) :
    List Op :=
  [{ C := ipaddressesC, Id := i.doc.DocID, Assert := some [("state", Cond.eq "")],
     Update := some [("machineid", machineId), ("interfaceid", interfaceId)],
     Remove := false }]

/-- AllocateTo sets the machine ID and interface ID of the IP address. -/
def IPAddress.AllocateTo (i : IPAddress) (machineId : String) (interfaceId : String)
    (st : Store) : Store × Option StateError :=
  let r := runTransaction st (i.AllocateToOps machineId interfaceId)
  (r.1, DeferredAnnotatef (ErrContext.cannotAllocate i machineId interfaceId) r.2)

/-- The stored document of a handle, if any. -/
def IPAddress.stored (i : IPAddress) (st : Store) : Option ipaddressDoc :=
  st ipaddressesC i.doc.DocID

/-- The store in which the document of collection `c0` and id `id0` is replaced. -/
def Store.put (st : Store) (c0 : String) (id0 : String) (d : Option ipaddressDoc) : Store :=
  fun c id => if c = c0 ∧ id = id0 then d else st c id

/-- One state-changing call on an IP-address handle. -/
inductive Call where
  | setState (newState : AddressState)
  | allocateTo (machineId : String) (interfaceId : String)
deriving DecidableEq, Repr

/-- Perform one call through a handle. -/
def IPAddress.call (i : IPAddress) (c : Call) (st : Store) : Store × Option StateError :=
  match c with
  | Call.setState newState => i.SetState newState st
  | Call.allocateTo machineId interfaceId => i.AllocateTo machineId interfaceId st

/-- Perform a sequence of calls, each through its own handle, whether or not each
succeeds; the result is the store afterwards. -/
def runCalls (st : Store) : List (IPAddress × Call) → Store
  | [] => st
  | ic :: rest => runCalls (ic.1.call ic.2 st).1 rest

/-- A fresh document: state Unknown and no associations. -/
def ipaddressDoc.fresh (d : ipaddressDoc) : Prop :=
  d.State = AddressStateUnknown ∧ d.MachineId = "" ∧ d.InterfaceId = ""

instance (d : ipaddressDoc) : Decidable d.fresh := by
  unfold ipaddressDoc.fresh; infer_instance

/-- A call whose `AllocateTo` arguments are both empty or both set (every `SetState`
call qualifies). -/
def Call.paired : Call → Prop
  | Call.setState _ => True
  | Call.allocateTo m n => (m ≠ "" ↔ n ≠ "")

instance (c : Call) : Decidable c.paired := by
  cases c <;> unfold Call.paired <;> infer_instance

/-- A sample fresh document and its handle and store, for evaluation. -/
def sampleDoc : ipaddressDoc :=
  { DocID := "a", EnvUUID := "e", SubnetId := "", MachineId := "", InterfaceId := "",
    Value := "10.0.0.1", AddressType := "ipv4", Scope := "", State := AddressStateUnknown }

/-- The handle of the sample document. -/
def sampleAddr : IPAddress := { doc := sampleDoc }

/-- The store holding only the sample document. -/
def sampleStore : Store :=
  fun c id => if c = ipaddressesC ∧ id = "a" then some sampleDoc else none

/-! ## The `juju do` command (src/cmd/juju/action/do.go) -/

/-- Regular expressions: the fragment of Go `regexp` syntax that `actionNameRule` is
written in, with the two constructors (`fail`, `alt`) that derivatives need. A class is a
list of inclusive character ranges. -/
inductive Regex where
  | fail
  | empty
  | cls (ranges : List (Char × Char))
  | alt (r : Regex) (s : Regex)
  | seq (r : Regex) (s : Regex)
  | star (r : Regex)
  | opt (r : Regex)
deriving DecidableEq, Repr

/-- Membership of a character in a class. -/
def inClass (ranges : List (Char × Char)) (c : Char) : Bool :=
  ranges.any (fun lh => decide (lh.1 ≤ c) && decide (c ≤ lh.2))

/-- Whether the expression matches the empty text. -/
def Regex.nullable : Regex → Bool
  | Regex.fail => false
  | Regex.empty => true
  | Regex.cls _ => false
  | Regex.alt r s => r.nullable || s.nullable
  | Regex.seq r s => r.nullable && s.nullable
  | Regex.star _ => true
  | Regex.opt _ => true

/-- The expression matching what is left after reading `c`. -/
def Regex.deriv : Regex → Char → Regex
  | Regex.fail, _ => Regex.fail
  | Regex.empty, _ => Regex.fail
  | Regex.cls ranges, c => if inClass ranges c then Regex.empty else Regex.fail
  | Regex.alt r s, c => Regex.alt (r.deriv c) (s.deriv c)
  | Regex.seq r s, c =>
    if r.nullable then Regex.alt (Regex.seq (r.deriv c) s) (s.deriv c)
    else Regex.seq (r.deriv c) s
  | Regex.star r, c => Regex.seq (r.deriv c) (Regex.star r)
  | Regex.opt r, c => r.deriv c

/-- Whole-text match of a list of characters. -/
def Regex.rmatch (r : Regex) : List Char → Bool
  | [] => r.nullable
  | c :: cs => (r.deriv c).rmatch cs

/-- MatchString for a pattern anchored by `^` and `$` (outside multi-line mode `$` is the
end of the text): the whole text has to match. -/
def Regex.MatchString (r : Regex) (s : String) : Bool :=
  r.rmatch s.toList

/-- The class `[a-z]`. -/
def lowerClass : List (Char × Char) := [('a', 'z')]

/-- The class `[a-z-]`. -/
def lowerHyphenClass : List (Char × Char) := [('a', 'z'), ('-', '-')]

/-- actionNameRule describes the format an action name must match to be valid:
`^[a-z](?:[a-z-]*[a-z])?$`. -/
def actionNameRule : Regex :=
  Regex.seq (Regex.cls lowerClass)
    (Regex.opt (Regex.seq (Regex.star (Regex.cls lowerHyphenClass)) (Regex.cls lowerClass)))

/-- A lowercase letter `a` to `z`. -/
def isLowerLetter (c : Char) : Bool :=
  decide ('a' ≤ c) && decide (c ≤ 'z')

/-- The action-name rule in the words of the specification: the name is non-empty,
consists only of lowercase letters and hyphens, and both begins and ends with a letter. -/
def validActionNameSpec (s : String) : Bool :=
  match s.toList with
  | [] => false
  | c :: cs =>
    (c :: cs).all (fun x => isLowerLetter x || x == '-') &&
      isLowerLetter c && isLowerLetter ((c :: cs).getLast (List.cons_ne_nil c cs))

/-- The `*params.Error` a facade result carries. -/
structure ParamsError where
  Message : String
  Code : String
deriving DecidableEq, Repr

/-- Errors of the command layer, kept structured: the constructor and its arguments stand
for the constructing call and its format arguments. -/
inductive Error where
  | new (msg : String)
  | invalidUnitName (unitName : String)
  | invalidActionName (actionName : String)
  | unrecognizedArgs (args : List String)
  | remote (e : ParamsError)
  | resultCount (got : Nat)
  | external (msg : String)
deriving DecidableEq, Repr

/-- The tag `names.NewUnitTag` builds from a unit name. -/
structure UnitTag where
  name : String
deriving DecidableEq, Repr

/-- The typed action identifier `names.ParseActionTag` yields. -/
structure ActionTag where
  Id : String
deriving DecidableEq, Repr

/-- The functions of the external package `names` that the command calls, taken as
parameters. -/
structure Names where
  IsValidUnit : String → Bool
  UnitTagString : UnitTag → String
  ParseActionTag : String → Except Error ActionTag

/-- The `cmd.FileVar` holding the path given with `--params`. -/
structure FileVar where
  Path : String
deriving DecidableEq, Repr

/-- DoCommand enqueues an Action for running on the given unit with given params. -/
structure DoCommand where
  unitTag : UnitTag
  actionName : String
  paramsYAML : FileVar
deriving DecidableEq, Repr

/-- CheckEmpty (package `cmd`) is an error exactly when arguments are left over. -/
def CheckEmpty (args : List String) : Option Error :=
  if args.length ≠ 0 then some (Error.unrecognizedArgs args) else none

/-- Init gets the unit tag, and checks for other correct args. The result is the command
afterwards and the error, if any. -/
def DoCommand.Init (names : Names) (c : DoCommand) (args : List String) :
    DoCommand × Option Error :=
  match args with
  | [] => (c, some (Error.new "no unit specified"))
  | [_] => (c, some (Error.new "no action specified"))
  | [unitName, actionName] =>
    if !names.IsValidUnit unitName then
      (c, some (Error.invalidUnitName unitName))
    else if !actionNameRule.MatchString actionName then
      (c, some (Error.invalidActionName actionName))
    else
      ({ c with unitTag := { name := unitName }, actionName := actionName }, none)
  | _ :: rest => (c, CheckEmpty rest)

/-- An untyped decoded parameter value (`interface{}`): a scalar, a sequence, a mapping
with string keys (`map[string]interface{}`) or a mapping with keys of any type. -/
inductive Value where
  | scalar (v : String)
  | sequence (items : List Value)
  | strMap (entries : List (String × Value))
  | anyMap (entries : List (Value × Value))

/-- The `params.Action`: as a request it carries the receiver, the name and the
parameters; as part of a result, its tag. -/
structure Action where
  Tag : String
  Receiver : String
  Name : String
  Parameters : List (String × Value)

set_option linter.dupNamespace false in
/-- The request `params.Actions`. -/
structure Actions where
  Actions : List Action

/-- One `params.ActionResult`: an optional action reference and an optional error. -/
structure ActionResult where
  Action : Option Action
  Error : Option ParamsError

/-- The reply `params.ActionResults`. -/
structure ActionResults where
  Results : List ActionResult

/-- The action API client: `Enqueue` returns the results and an error, as in Go. -/
structure APIClient where
  Enqueue : Actions → ActionResults × Option Error

/-- What `Run` works with besides the command itself: the client constructor, the file
reader of `--params`, the YAML decoder (the populated map and its error), `conform`
(the parameter normalizer, declared not among the files embedded here), the writer of `c.out`,
and package `names`. -/
structure RunEnv where
  names : Names
  NewActionAPIClient : Except Error APIClient
  Read : Except Error String
  Unmarshal : String → List (String × Value) × Option Error
  conform : Value → Except Error Value
  Write : List (String × String) → Option Error

/-- What a run of the command did: the error it returned, the outputs it wrote, the
requests it sent to `Enqueue`, and whether it hit a run-time panic. -/
structure RunOutcome where
  err : Option Error
  written : List (List (String × String))
  enqueued : List Actions
  panicked : Bool

/-- The parameter phase of `Run`: the empty map unless a params file was given; the file
is read, decoded (the decoder's error is overwritten by the next assignment), conformed,
and asserted to be a map with string keys. -/
def DoCommand.actionParams (c : DoCommand) (env : RunEnv) : Except Error (List (String × Value)) :=
  if c.paramsYAML.Path ≠ "" then
    match env.Read with
    | Except.error err => Except.error err
    | Except.ok b =>
      let actionParams := (env.Unmarshal b).1
      match env.conform (Value.strMap actionParams) with
      | Except.error err => Except.error err
      | Except.ok conformantParams =>
        match conformantParams with
        | Value.strMap betterParams => Except.ok betterParams
        | _ => Except.error (Error.new "params must contain a YAML map with string keys")
  else Except.ok []

/-- The request `Run` builds: one action for the unit tag and action name. -/
def DoCommand.actionParam (c : DoCommand) (env : RunEnv) (actionParams : List (String × Value)) :
    Actions :=
  { Actions := [{ Tag := "", Receiver := env.names.UnitTagString c.unitTag,
                  Name := c.actionName, Parameters := actionParams }] }

/-- The part of `Run` after `Enqueue` has returned `results` and `err`. -/
def DoCommand.afterEnqueue (env : RunEnv) (sent : List Actions) (results : ActionResults)
    (err : Option Error) : RunOutcome :=
  match err with
  | some e => { err := some e, written := [], enqueued := sent, panicked := false }
  | none =>
    if results.Results.length ≠ 1 then
      { err := some (Error.new "illegal number of results returned"), written := [],
        enqueued := sent, panicked := false }
    else
      match results.Results[0]? with
      | none => { err := none, written := [], enqueued := sent, panicked := true }
      | some result =>
        match result.Error with
        | some e => { err := some (Error.remote e), written := [], enqueued := sent,
                      panicked := false }
        | none =>
          match result.Action with
          | none => { err := some (Error.new "action failed to enqueue"), written := [],
                      enqueued := sent, panicked := false }
          | some action =>
            match env.names.ParseActionTag action.Tag with
            | Except.error e => { err := some e, written := [], enqueued := sent,
                                  panicked := false }
            | Except.ok tag =>
              let output := [("Action queued with id", tag.Id)]
              { err := env.Write output, written := [output], enqueued := sent,
                panicked := false }

/-- Run enqueues the action and reports the identifier of the queued action. The deferred
`api.Close()` has no part in the result and is left out. -/
def DoCommand.Run (c : DoCommand) (env : RunEnv) : RunOutcome :=
  match env.NewActionAPIClient with
  | Except.error err => { err := some err, written := [], enqueued := [], panicked := false }
  | Except.ok api =>
    match c.actionParams env with
    | Except.error err => { err := some err, written := [], enqueued := [], panicked := false }
    | Except.ok actionParams =>
      let actionParam := c.actionParam env actionParams
      let reply := api.Enqueue actionParam
      DoCommand.afterEnqueue env [actionParam] reply.1 reply.2

/-- A stand-in for package `names`, for evaluation: a unit name is `service/number`
shaped when it contains a slash, and an action tag is `action-` followed by the id. -/
def sampleNames : Names :=
  { IsValidUnit := fun s => s.toList.contains '/',
    UnitTagString := fun t => "unit-" ++ t.name,
    ParseActionTag := fun s =>
      if "action-".toList.isPrefixOf s.toList then
        Except.ok { Id := String.mk (s.toList.drop 7) }
      else Except.error (Error.external "not a valid action tag") }

/-- The command before `Init`. -/
def sampleCmd : DoCommand :=
  { unitTag := { name := "" }, actionName := "", paramsYAML := { Path := "" } }

/-- The command after `Init ["mysql/3", "backup"]`. -/
def sampleCmdReady : DoCommand :=
  { unitTag := { name := "mysql/3" }, actionName := "backup", paramsYAML := { Path := "" } }

/-- An environment whose `Enqueue` answers with the given results and no error. -/
def sampleEnv (results : List ActionResult) : RunEnv :=
  { names := sampleNames,
    NewActionAPIClient := Except.ok { Enqueue := fun _ => ({ Results := results }, none) },
    Read := Except.error (Error.external "no params file"),
    Unmarshal := fun _ => ([], none),
    conform := fun v => Except.ok v,
    Write := fun _ => none }

/-- The error `common.ServerError(common.ErrPerm)` as it arrives in a result. -/
def permissionDenied : ParamsError :=
  { Message := "permission denied", Code := "unauthorized access" }

/-- A result carrying the permission error and no action reference. -/
def deniedResult : ActionResult :=
  { Action := none, Error := some permissionDenied }

/-- A tag, as the action reference of a result. -/
def actionRef (tag : String) : Action :=
  { Tag := tag, Receiver := "", Name := "", Parameters := [] }

/-- Two results, each with a parsable action reference. -/
def twoResults : List ActionResult :=
  [{ Action := some (actionRef "action-1"), Error := none },
   { Action := some (actionRef "action-2"), Error := none }]

/-! ## The service facade client (exercised by src/api/service/client_test.go) -/

/-- One `params.ServiceMetricCredential`: a service name and its credential bytes. -/
structure ServiceMetricCredential where
  ServiceName : String
  MetricCredentials : List UInt8
deriving DecidableEq, Repr

/-- The request `params.ServiceMetricCredentials`. -/
structure ServiceMetricCredentials where
  Creds : List ServiceMetricCredential
deriving DecidableEq, Repr

/-- One `params.ErrorResult`: the optional error of one item. -/
structure ErrorResult where
  Error : Option ParamsError
deriving DecidableEq, Repr

/-- The reply `params.ErrorResults`: one outcome per item, in order. -/
structure ErrorResults where
  Results : List ErrorResult
deriving DecidableEq, Repr

/-- Modelled from the spec: the single-item helper `ErrorResults.OneError` of the
batched-result convention (section 4.3), whose code is not among the files embedded here. A
list that does not hold exactly one result is a count-mismatch error; one result with an
error yields that error; one result without error yields no error. -/
def ErrorResults.OneError (r : ErrorResults) : Option Error :=
  if r.Results.length ≠ 1 then some (Error.resultCount r.Results.length)
  else
    match r.Results[0]? with
    | some one => one.Error.map Error.remote
    | none => none

/-- The dispatch function of a facade client, the substitutable "send named request,
receive decoded response" primitive: from the request name, the request value and the
state of the transport, the new state of the transport, the response as the callee
populated it, and the error of the call. -/
abbrev FacadeCall (σ : Type) :=
  String → ServiceMetricCredentials → σ → σ × ErrorResults × Option Error

/-- Modelled from the spec: `Client.SetMetricCredentials` (section 6:
`SetMetricCredentials(serviceName, credentialsBytes)` answering `ErrorResults[1]`), whose
code is not among the files embedded here. It sends one request named "SetMetricCredentials"
with a single entry, returns the error of the call if there is one, and otherwise
collapses the reply with the single-item helper. -/
def Client.SetMetricCredentials {σ : Type} (facadeCall : FacadeCall σ) (service : String)
    (credentials : List UInt8) (s : σ) : σ × Option Error :=
  let p : ServiceMetricCredentials :=
    { Creds := [{ ServiceName := service, MetricCredentials := credentials }] }
  let r := facadeCall "SetMetricCredentials" p s
  match r.2.2 with
  | some err => (r.1, some err)
  | none => (r.1, r.2.1.OneError)

/-- The patched facade call of the tests: it records each request it receives, in order,
and answers with the given reply. -/
def recordingFacade (reply : String → ServiceMetricCredentials → ErrorResults × Option Error) :
    FacadeCall (List (String × ServiceMetricCredentials)) :=
  fun request a log => (log ++ [(request, a)], reply request a)

/-- The bytes of "creds 1". -/
def creds1 : List UInt8 := [99, 114, 101, 100, 115, 32, 49]

/-! ## Store lemmas -/

theorem runTransaction_single (st : Store) (op : Op) :
    runTransaction st [op] =
      match checkOp st op with
      | some e => (st, some e)
      | none => (applyOp st op, none) := by
  unfold runTransaction
  cases h : checkOp st op <;> simp [List.findSome?, h]

theorem field_state (d : ipaddressDoc) : d.field "state" = some d.State := by
  simp [ipaddressDoc.field]

theorem setField_state (d : ipaddressDoc) (v : String) :
    d.setField "state" v = { d with State := v } := by
  simp [ipaddressDoc.setField]

theorem setField_machineid (d : ipaddressDoc) (v : String) :
    d.setField "machineid" v = { d with MachineId := v } := by
  simp [ipaddressDoc.setField]

theorem setField_interfaceid (d : ipaddressDoc) (v : String) :
    d.setField "interfaceid" v = { d with InterfaceId := v } := by
  simp [ipaddressDoc.setField]

theorem put_same (st : Store) (c0 id0 : String) (d : Option ipaddressDoc) :
    (st.put c0 id0 d) c0 id0 = d := by
  simp [Store.put]

theorem put_other (st : Store) (c0 id0 c id : String) (d : Option ipaddressDoc)
    (h : ¬ (c = c0 ∧ id = id0)) : (st.put c0 id0 d) c id = st c id := by
  simp [Store.put, h]

theorem SetState_eval (i : IPAddress) (t : AddressState) (st : Store) :
    i.SetState t st =
      match i.stored st with
      | none => (st, some { context := ErrContext.cannotSetState i t, cause := TxnError.notFound })
      | some d =>
        if d.State = AddressStateUnknown ∨ d.State = t then
          (st.put ipaddressesC i.doc.DocID (some { d with State := t }), none)
        else
          (st, some { context := ErrContext.cannotSetState i t, cause := TxnError.aborted }) := by
  cases hd : i.stored st with
  | none =>
    unfold IPAddress.stored at hd
    simp [IPAddress.SetState, IPAddress.SetStateOps, runTransaction_single, checkOp, hd,
      DeferredAnnotatef]
  | some d =>
    unfold IPAddress.stored at hd
    simp only [IPAddress.SetState, IPAddress.SetStateOps, runTransaction_single, checkOp, hd,
      List.all_cons, List.all_nil, field_state, Cond.holds, Bool.and_true, List.contains_cons,
      List.contains_nil, Bool.or_false, Bool.or_eq_true, beq_iff_eq]
    by_cases h : d.State = AddressStateUnknown ∨ d.State = t
    · rw [if_pos h, if_pos h]
      simp only [applyOp, DeferredAnnotatef, Option.map, List.foldl, setField_state]
      simp only [Bool.false_eq_true, if_false, Prod.mk.injEq, and_true]
      funext c id
      by_cases hk : c = ipaddressesC ∧ id = i.doc.DocID
      · obtain ⟨rfl, rfl⟩ := hk
        simp [Store.put, hd]
      · simp [Store.put, hk]
    · rw [if_neg h, if_neg h]
      simp [DeferredAnnotatef]

theorem AllocateTo_eval (i : IPAddress) (m n : String) (st : Store) :
    i.AllocateTo m n st =
      match i.stored st with
      | none =>
        (st, some { context := ErrContext.cannotAllocate i m n, cause := TxnError.notFound })
      | some d =>
        if d.State = AddressStateUnknown then
          (st.put ipaddressesC i.doc.DocID (some { d with MachineId := m, InterfaceId := n }), none)
        else
          (st, some { context := ErrContext.cannotAllocate i m n, cause := TxnError.aborted }) := by
  cases hd : i.stored st with
  | none =>
    unfold IPAddress.stored at hd
    simp [IPAddress.AllocateTo, IPAddress.AllocateToOps, runTransaction_single, checkOp, hd,
      DeferredAnnotatef]
  | some d =>
    unfold IPAddress.stored at hd
    simp only [IPAddress.AllocateTo, IPAddress.AllocateToOps, runTransaction_single, checkOp, hd,
      List.all_cons, List.all_nil, field_state, Cond.holds, Bool.and_true, beq_iff_eq]
    by_cases h : d.State = AddressStateUnknown
    · have h0 : d.State = "" := h
      rw [if_pos h0, if_pos h]
      simp only [applyOp, DeferredAnnotatef, Option.map, List.foldl, setField_machineid,
        setField_interfaceid]
      simp only [Bool.false_eq_true, if_false, Prod.mk.injEq, and_true]
      funext c id
      by_cases hk : c = ipaddressesC ∧ id = i.doc.DocID
      · obtain ⟨rfl, rfl⟩ := hk
        simp [Store.put, hd]
      · simp [Store.put, hk]
    · have h0 : ¬ d.State = "" := h
      rw [if_neg h0, if_neg h]
      simp [DeferredAnnotatef]

theorem Remove_eval (i : IPAddress) (st : Store) :
    i.Remove st =
      match i.stored st with
      | none => (st, some { context := ErrContext.cannotRemove i, cause := TxnError.notFound })
      | some _ => (st.put ipaddressesC i.doc.DocID none, none) := by
  cases hd : i.stored st with
  | none =>
    unfold IPAddress.stored at hd
    simp [IPAddress.Remove, IPAddress.RemoveOps, runTransaction_single, checkOp, hd,
      DeferredAnnotatef]
  | some d =>
    unfold IPAddress.stored at hd
    simp only [IPAddress.Remove, IPAddress.RemoveOps, runTransaction_single, checkOp, hd]
    simp only [applyOp, DeferredAnnotatef, Option.map, if_true, Prod.mk.injEq, and_true]
    funext c id
    by_cases hk : c = ipaddressesC ∧ id = i.doc.DocID
    · simp [Store.put, hk]
    · simp [Store.put, hk]

theorem SetState_ok (i : IPAddress) (t : AddressState) (st : Store) (d : ipaddressDoc)
    (hd : i.stored st = some d) (h : d.State = AddressStateUnknown ∨ d.State = t) :
    i.SetState t st = (st.put ipaddressesC i.doc.DocID (some { d with State := t }), none) := by
  rw [SetState_eval, hd]
  exact if_pos h

theorem SetState_fail (i : IPAddress) (t : AddressState) (st : Store) (d : ipaddressDoc)
    (hd : i.stored st = some d) (h : ¬ (d.State = AddressStateUnknown ∨ d.State = t)) :
    i.SetState t st =
      (st, some { context := ErrContext.cannotSetState i t, cause := TxnError.aborted }) := by
  rw [SetState_eval, hd]
  exact if_neg h

theorem AllocateTo_ok (i : IPAddress) (m n : String) (st : Store) (d : ipaddressDoc)
    (hd : i.stored st = some d) (h : d.State = AddressStateUnknown) :
    i.AllocateTo m n st =
      (st.put ipaddressesC i.doc.DocID (some { d with MachineId := m, InterfaceId := n }),
        none) := by
  rw [AllocateTo_eval, hd]
  exact if_pos h

theorem AllocateTo_fail (i : IPAddress) (m n : String) (st : Store) (d : ipaddressDoc)
    (hd : i.stored st = some d) (h : d.State ≠ AddressStateUnknown) :
    i.AllocateTo m n st =
      (st, some { context := ErrContext.cannotAllocate i m n, cause := TxnError.aborted }) := by
  rw [AllocateTo_eval, hd]
  exact if_neg h

theorem stored_put (i : IPAddress) (st : Store) (d : Option ipaddressDoc) :
    i.stored (st.put ipaddressesC i.doc.DocID d) = d :=
  put_same _ _ _ _

theorem call_step (j : IPAddress) (c : Call) (st : Store) (id0 : String) (d : ipaddressDoc)
    (hd : st ipaddressesC id0 = some d) :
    (j.call c st).1 ipaddressesC id0 = some d ∨
    (d.State = AddressStateUnknown ∧ ∃ t, c = Call.setState t ∧
      (j.call c st).1 ipaddressesC id0 = some { d with State := t }) ∨
    (d.State = AddressStateUnknown ∧ ∃ m n, (j.doc.DocID = id0 ∧ c = Call.allocateTo m n) ∧
      (j.call c st).1 ipaddressesC id0 = some { d with MachineId := m, InterfaceId := n }) := by
  by_cases hj : j.doc.DocID = id0
  · have hs : j.stored st = some d := by
      unfold IPAddress.stored
      rw [hj]
      exact hd
    cases c with
    | setState t =>
      simp only [IPAddress.call, SetState_eval, hs]
      by_cases h : d.State = AddressStateUnknown ∨ d.State = t
      · rw [if_pos h, hj]
        simp only [put_same]
        rcases h with h | h
        · exact Or.inr (Or.inl ⟨h, t, rfl, rfl⟩)
        · left
          subst h
          rfl
      · rw [if_neg h]
        exact Or.inl hd
    | allocateTo m n =>
      simp only [IPAddress.call, AllocateTo_eval, hs]
      by_cases h : d.State = AddressStateUnknown
      · rw [if_pos h, hj]
        simp only [put_same]
        exact Or.inr (Or.inr ⟨h, m, n, ⟨trivial, rfl⟩, rfl⟩)
      · rw [if_neg h]
        exact Or.inl hd
  · left
    have hne : ¬ (ipaddressesC = ipaddressesC ∧ id0 = j.doc.DocID) := fun h => hj h.2.symm
    cases c with
    | setState t =>
      simp only [IPAddress.call, SetState_eval]
      cases j.stored st with
      | none => exact hd
      | some e =>
        dsimp only
        split
        · simp only [put_other _ _ _ _ _ _ hne]
          exact hd
        · exact hd
    | allocateTo m n =>
      simp only [IPAddress.call, AllocateTo_eval]
      cases j.stored st with
      | none => exact hd
      | some e =>
        dsimp only
        split
        · simp only [put_other _ _ _ _ _ _ hne]
          exact hd
        · exact hd

theorem runCalls_exists (st : Store) (id0 : String) (d : ipaddressDoc)
    (calls : List (IPAddress × Call)) (hd : st ipaddressesC id0 = some d) :
    ∃ e, runCalls st calls ipaddressesC id0 = some e := by
  induction calls generalizing st d with
  | nil => exact ⟨d, hd⟩
  | cons ic rest ih =>
    rcases call_step ic.1 ic.2 st id0 d hd with h | ⟨_, _, _, h⟩ | ⟨_, _, _, _, h⟩ <;>
      exact ih _ _ h

theorem runCalls_state_terminal (st : Store) (id0 : String) (d : ipaddressDoc)
    (calls : List (IPAddress × Call)) (hd : st ipaddressesC id0 = some d)
    (hs : d.State ≠ AddressStateUnknown) :
    ∃ e, runCalls st calls ipaddressesC id0 = some e ∧ e.State = d.State := by
  induction calls generalizing st d with
  | nil => exact ⟨d, hd, rfl⟩
  | cons ic rest ih =>
    rcases call_step ic.1 ic.2 st id0 d hd with h | ⟨h0, _⟩ | ⟨h0, _⟩
    · exact ih _ _ h hs
    · exact absurd h0 hs
    · exact absurd h0 hs

theorem runCalls_paired (st : Store) (id0 : String) (d : ipaddressDoc)
    (calls : List (IPAddress × Call)) (hd : st ipaddressesC id0 = some d)
    (hp : d.MachineId ≠ "" ↔ d.InterfaceId ≠ "")
    (hc : ∀ ic ∈ calls, ic.1.doc.DocID = id0 → ic.2.paired) :
    ∃ e, runCalls st calls ipaddressesC id0 = some e ∧
      (e.MachineId ≠ "" ↔ e.InterfaceId ≠ "") := by
  induction calls generalizing st d with
  | nil => exact ⟨d, hd, hp⟩
  | cons ic rest ih =>
    have hrest : ∀ x ∈ rest, x.1.doc.DocID = id0 → x.2.paired :=
      fun x hx => hc x (List.mem_cons_of_mem _ hx)
    rcases call_step ic.1 ic.2 st id0 d hd with
      h | ⟨_, t, _, h⟩ | ⟨_, m, n, ⟨hj, hmn⟩, h⟩
    · exact ih _ _ h hp hrest
    · exact ih _ _ h hp hrest
    · have hic : ic.2.paired := hc ic (List.mem_cons_self _ _) hj
      rw [hmn] at hic
      exact ih _ _ h hic hrest

/-! ## Claims on the IP-address entity -/

/-- C1: for a stored document with state `s` and any target `t`, `SetState t` succeeds
if and only if `s` is Unknown or `s = t`; on success the stored document is the old one
with only its state replaced by `t`; on failure the store is unchanged. -/
theorem C1_SetState_contract (i : IPAddress) (st : Store) (d : ipaddressDoc)
    (t : AddressState) (hd : i.stored st = some d) :
    ((i.SetState t st).2 = none ↔ (d.State = AddressStateUnknown ∨ d.State = t)) ∧
    ((i.SetState t st).2 = none →
      i.stored (i.SetState t st).1 = some { d with State := t }) ∧
    ((i.SetState t st).2 ≠ none → (i.SetState t st).1 = st) := by
  by_cases h : d.State = AddressStateUnknown ∨ d.State = t
  · rw [SetState_ok i t st d hd h]
    exact ⟨⟨fun _ => h, fun _ => rfl⟩, fun _ => stored_put _ _ _, fun hn => absurd rfl hn⟩
  · rw [SetState_fail i t st d hd h]
    exact ⟨⟨fun hn => by simp at hn, fun hn => absurd hn h⟩, fun hn => by simp at hn,
      fun _ => rfl⟩

theorem C1_SetState_contract_witness :
    sampleAddr.stored sampleStore = some sampleDoc ∧
    (((sampleAddr.SetState AddressStateAllocated sampleStore).2 = none ↔
        (sampleDoc.State = AddressStateUnknown ∨ sampleDoc.State = AddressStateAllocated)) ∧
      ((sampleAddr.SetState AddressStateAllocated sampleStore).2 = none →
        sampleAddr.stored (sampleAddr.SetState AddressStateAllocated sampleStore).1 =
          some { sampleDoc with State := AddressStateAllocated }) ∧
      ((sampleAddr.SetState AddressStateAllocated sampleStore).2 ≠ none →
        (sampleAddr.SetState AddressStateAllocated sampleStore).1 = sampleStore)) :=
  ⟨by decide, C1_SetState_contract sampleAddr sampleStore sampleDoc AddressStateAllocated
    (by decide)⟩

/-- C3: for a stored document and any arguments, `AllocateTo` fails and leaves the store
unchanged when the stored state is not Unknown; when it is Unknown the call succeeds and
the stored document is the old one with only `MachineId` and `InterfaceId` replaced by the
two arguments. -/
theorem C3_AllocateTo_contract (i : IPAddress) (st : Store) (d : ipaddressDoc)
    (machineId interfaceId : String) (hd : i.stored st = some d) :
    (d.State ≠ AddressStateUnknown →
      (i.AllocateTo machineId interfaceId st).2 ≠ none ∧
      (i.AllocateTo machineId interfaceId st).1 = st) ∧
    (d.State = AddressStateUnknown →
      (i.AllocateTo machineId interfaceId st).2 = none ∧
      i.stored (i.AllocateTo machineId interfaceId st).1 =
        some { d with MachineId := machineId, InterfaceId := interfaceId }) := by
  by_cases h : d.State = AddressStateUnknown
  · rw [AllocateTo_ok i _ _ st d hd h]
    exact ⟨fun hn => absurd h hn, fun _ => ⟨rfl, stored_put _ _ _⟩⟩
  · rw [AllocateTo_fail i _ _ st d hd h]
    exact ⟨fun _ => ⟨by simp, rfl⟩, fun hn => absurd hn h⟩

theorem C3_AllocateTo_contract_witness :
    sampleAddr.stored sampleStore = some sampleDoc ∧
    ((sampleDoc.State ≠ AddressStateUnknown →
      (sampleAddr.AllocateTo "0" "eth0" sampleStore).2 ≠ none ∧
      (sampleAddr.AllocateTo "0" "eth0" sampleStore).1 = sampleStore) ∧
    (sampleDoc.State = AddressStateUnknown →
      (sampleAddr.AllocateTo "0" "eth0" sampleStore).2 = none ∧
      sampleAddr.stored (sampleAddr.AllocateTo "0" "eth0" sampleStore).1 =
        some { sampleDoc with MachineId := "0", InterfaceId := "eth0" })) :=
  ⟨by decide, C3_AllocateTo_contract sampleAddr sampleStore sampleDoc "0" "eth0" (by decide)⟩

/-- C2 (as stated, refuted): on the sample document in state Unknown a first
`AllocateTo "m1" "i1"` succeeds, and a second `AllocateTo "m2" "i2"` succeeds too and
replaces the stored associations. -/
theorem C2_second_AllocateTo_succeeds :
    sampleAddr.stored sampleStore = some sampleDoc ∧
    sampleDoc.State = AddressStateUnknown ∧
    (sampleAddr.AllocateTo "m1" "i1" sampleStore).2 = none ∧
    (sampleAddr.AllocateTo "m2" "i2" (sampleAddr.AllocateTo "m1" "i1" sampleStore).1).2 = none ∧
    sampleAddr.stored
        (sampleAddr.AllocateTo "m2" "i2" (sampleAddr.AllocateTo "m1" "i1" sampleStore).1).1 =
      some { sampleDoc with MachineId := "m2", InterfaceId := "i2" } := by
  decide

/-- C2 (amended): for a stored document in state Unknown, a first `AllocateTo m1 i1`
succeeds and leaves the state Unknown, so a second `AllocateTo m2 i2` succeeds as well and
replaces the associations; once the state has been moved out of Unknown in between (by a
`SetState t` with `t` not Unknown), the second `AllocateTo` fails with a precondition
failure, the store is unchanged and the associations remain `m1` and `i1`. -/
theorem C2_AllocateTo_repeat (i : IPAddress) (st : Store) (d : ipaddressDoc)
    (m1 i1 m2 i2 : String) (hd : i.stored st = some d)
    (hs : d.State = AddressStateUnknown) :
    (i.AllocateTo m1 i1 st).2 = none ∧
    i.stored (i.AllocateTo m1 i1 st).1 = some { d with MachineId := m1, InterfaceId := i1 } ∧
    (i.AllocateTo m2 i2 (i.AllocateTo m1 i1 st).1).2 = none ∧
    i.stored (i.AllocateTo m2 i2 (i.AllocateTo m1 i1 st).1).1 =
      some { d with MachineId := m2, InterfaceId := i2 } ∧
    ∀ t : AddressState, t ≠ AddressStateUnknown →
      (i.SetState t (i.AllocateTo m1 i1 st).1).2 = none ∧
      i.stored (i.SetState t (i.AllocateTo m1 i1 st).1).1 =
        some { d with MachineId := m1, InterfaceId := i1, State := t } ∧
      (i.AllocateTo m2 i2 (i.SetState t (i.AllocateTo m1 i1 st).1).1).2 =
        some { context := ErrContext.cannotAllocate i m2 i2, cause := TxnError.aborted } ∧
      (i.AllocateTo m2 i2 (i.SetState t (i.AllocateTo m1 i1 st).1).1).1 =
        (i.SetState t (i.AllocateTo m1 i1 st).1).1 := by
  have e1 := AllocateTo_ok i m1 i1 st d hd hs
  have hd1 : i.stored (i.AllocateTo m1 i1 st).1 =
      some { d with MachineId := m1, InterfaceId := i1 } := by
    rw [e1]
    exact stored_put _ _ _
  have e2 := AllocateTo_ok i m2 i2 _ _ hd1 hs
  refine ⟨by rw [e1], hd1, by rw [e2], ?_, ?_⟩
  · rw [e2]
    exact stored_put _ _ _
  · intro t ht
    have e3 := SetState_ok i t _ _ hd1 (Or.inl hs)
    have hd3 : i.stored (i.SetState t (i.AllocateTo m1 i1 st).1).1 =
        some { d with MachineId := m1, InterfaceId := i1, State := t } := by
      rw [e3]
      exact stored_put _ _ _
    have e4 := AllocateTo_fail i m2 i2 _ _ hd3 ht
    exact ⟨by rw [e3], hd3, by rw [e4], by rw [e4]⟩

theorem C2_AllocateTo_repeat_witness :
    (sampleAddr.AllocateTo "m2" "i2"
        (sampleAddr.SetState AddressStateAllocated
          (sampleAddr.AllocateTo "m1" "i1" sampleStore).1).1).2 =
      some { context := ErrContext.cannotAllocate sampleAddr "m2" "i2",
             cause := TxnError.aborted } :=
  ((C2_AllocateTo_repeat sampleAddr sampleStore sampleDoc "m1" "i1" "m2" "i2"
    (by decide) (by decide)).2.2.2.2 AddressStateAllocated (by decide)).2.2.1

/-- C4: once the stored state of a document is Allocated or Unavailable, it is the same
after any finite sequence of `SetState` and `AllocateTo` calls, through any handles and
with any arguments, and so never Unknown again; in particular, on a document in state
Unknown, `SetState Allocated` succeeds and a following `SetState Unavailable` fails with a
precondition failure and leaves the store as it was. -/
theorem C4_terminal_states :
    (∀ (st : Store) (id0 : String) (d : ipaddressDoc) (calls : List (IPAddress × Call)),
      st ipaddressesC id0 = some d →
      (d.State = AddressStateAllocated ∨ d.State = AddressStateUnvailable) →
      ∃ e, runCalls st calls ipaddressesC id0 = some e ∧ e.State = d.State ∧
        e.State ≠ AddressStateUnknown) ∧
    (∀ (i : IPAddress) (st : Store) (d : ipaddressDoc),
      i.stored st = some d → d.State = AddressStateUnknown →
      (i.SetState AddressStateAllocated st).2 = none ∧
      (i.SetState AddressStateUnvailable (i.SetState AddressStateAllocated st).1).2 =
        some { context := ErrContext.cannotSetState i AddressStateUnvailable,
               cause := TxnError.aborted } ∧
      (i.SetState AddressStateUnvailable (i.SetState AddressStateAllocated st).1).1 =
        (i.SetState AddressStateAllocated st).1 ∧
      i.stored (i.SetState AddressStateAllocated st).1 =
        some { d with State := AddressStateAllocated }) := by
  constructor
  · intro st id0 d calls hd hs
    have hne : d.State ≠ AddressStateUnknown := by
      rcases hs with h | h <;> rw [h] <;> decide
    obtain ⟨e, he, hse⟩ := runCalls_state_terminal st id0 d calls hd hne
    exact ⟨e, he, hse, by rw [hse]; exact hne⟩
  · intro i st d hd hs
    have e1 := SetState_ok i AddressStateAllocated st d hd (Or.inl hs)
    have hd1 : i.stored (i.SetState AddressStateAllocated st).1 =
        some { d with State := AddressStateAllocated } := by
      rw [e1]
      exact stored_put _ _ _
    have hno : ¬ (AddressStateAllocated = AddressStateUnknown ∨
        AddressStateAllocated = AddressStateUnvailable) := by decide
    have e2 := SetState_fail i AddressStateUnvailable _ _ hd1 hno
    exact ⟨by rw [e1], by rw [e2], by rw [e2], hd1⟩

theorem C4_terminal_states_witness :
    (∃ e, runCalls (sampleAddr.SetState AddressStateAllocated sampleStore).1
        [(sampleAddr, Call.setState AddressStateUnvailable),
         (sampleAddr, Call.allocateTo "0" "eth0"),
         (sampleAddr, Call.setState AddressStateUnknown)] ipaddressesC "a" = some e ∧
      e.State = AddressStateAllocated ∧ e.State ≠ AddressStateUnknown) ∧
    (sampleAddr.SetState AddressStateUnvailable
        (sampleAddr.SetState AddressStateAllocated sampleStore).1).2 =
      some { context := ErrContext.cannotSetState sampleAddr AddressStateUnvailable,
             cause := TxnError.aborted } :=
  ⟨C4_terminal_states.1 (sampleAddr.SetState AddressStateAllocated sampleStore).1 "a"
      { sampleDoc with State := AddressStateAllocated } _ (by decide) (by decide),
   (C4_terminal_states.2 sampleAddr sampleStore sampleDoc (by decide) (by decide)).2.1⟩

/-- C5 (as stated, refuted): on the fresh sample document, the single call
`AllocateTo "0" ""` leaves the stored `MachineId` set and the stored `InterfaceId` empty. -/
theorem C5_unpaired_AllocateTo :
    sampleStore ipaddressesC "a" = some sampleDoc ∧ sampleDoc.fresh ∧
    runCalls sampleStore [(sampleAddr, Call.allocateTo "0" "")] ipaddressesC "a" =
      some { sampleDoc with MachineId := "0", InterfaceId := "" } ∧
    ¬ (({ sampleDoc with MachineId := "0", InterfaceId := "" } : ipaddressDoc).MachineId ≠ "" ↔
       ({ sampleDoc with MachineId := "0", InterfaceId := "" } : ipaddressDoc).InterfaceId ≠
         "") := by
  decide

/-- C5 (amended): starting from a fresh document (state Unknown, no associations), after
every finite sequence of `SetState` and `AllocateTo` calls in which each `AllocateTo` on
that document is given two arguments that are both empty or both set, the stored
`MachineId` is set exactly when the stored `InterfaceId` is; and every call of the sequence
that changed either field was made while the stored state was Unknown. -/
theorem C5_associations_paired (st : Store) (id0 : String) (d : ipaddressDoc)
    (calls : List (IPAddress × Call)) (hd : st ipaddressesC id0 = some d) (hf : d.fresh)
    (hc : ∀ ic ∈ calls, ic.1.doc.DocID = id0 → ic.2.paired) :
    (∃ e, runCalls st calls ipaddressesC id0 = some e ∧
      (e.MachineId ≠ "" ↔ e.InterfaceId ≠ "")) ∧
    (∀ pre ic post, calls = pre ++ ic :: post →
      ∃ d1 d2, runCalls st pre ipaddressesC id0 = some d1 ∧
        (ic.1.call ic.2 (runCalls st pre)).1 ipaddressesC id0 = some d2 ∧
        ((d2.MachineId ≠ d1.MachineId ∨ d2.InterfaceId ≠ d1.InterfaceId) →
          d1.State = AddressStateUnknown)) := by
  constructor
  · refine runCalls_paired st id0 d calls hd ?_ hc
    rw [hf.2.1, hf.2.2]
  · intro pre ic post _
    obtain ⟨d1, h1⟩ := runCalls_exists st id0 d pre hd
    rcases call_step ic.1 ic.2 (runCalls st pre) id0 d1 h1 with h | ⟨h0, _, _, h⟩ |
      ⟨h0, _, _, _, h⟩
    · exact ⟨d1, d1, h1, h, fun hne => by rcases hne with hne | hne <;> exact absurd rfl hne⟩
    · exact ⟨d1, _, h1, h, fun _ => h0⟩
    · exact ⟨d1, _, h1, h, fun _ => h0⟩

theorem C5_associations_paired_witness :
    ∃ e, runCalls sampleStore
        [(sampleAddr, Call.allocateTo "0" "eth0"),
         (sampleAddr, Call.setState AddressStateAllocated),
         (sampleAddr, Call.allocateTo "" "")] ipaddressesC "a" = some e ∧
      (e.MachineId ≠ "" ↔ e.InterfaceId ≠ "") :=
  (C5_associations_paired sampleStore "a" sampleDoc _ (by decide) (by decide)
    (by decide)).1

/-- C6: `Remove` submits exactly one operation: a removal of the handle's own document id
with no precondition. Whenever that document exists, whatever its state and associations,
`Remove` succeeds, the document is absent afterwards and every other document is
unchanged; and `Remove` never fails with a precondition failure. -/
theorem C6_Remove_unconditional (i : IPAddress) (st : Store) :
    (∃ op, i.RemoveOps = [op] ∧ op.C = ipaddressesC ∧ op.Id = i.doc.DocID ∧
      op.Assert = none ∧ op.Update = none ∧ op.Remove = true) ∧
    (i.Remove st).1 = (runTransaction st i.RemoveOps).1 ∧
    (∀ d, i.stored st = some d →
      (i.Remove st).2 = none ∧ i.stored (i.Remove st).1 = none ∧
      ∀ c id, ¬ (c = ipaddressesC ∧ id = i.doc.DocID) → (i.Remove st).1 c id = st c id) ∧
    (∀ e, (i.Remove st).2 = some e → e.cause ≠ TxnError.aborted) := by
  refine ⟨⟨_, rfl, rfl, rfl, rfl, rfl, rfl⟩, rfl, ?_, ?_⟩
  · intro d hd
    rw [Remove_eval, hd]
    exact ⟨rfl, stored_put _ _ _, fun c id h => put_other _ _ _ _ _ _ h⟩
  · intro e he
    rw [Remove_eval] at he
    cases hs : i.stored st with
    | none =>
      rw [hs] at he
      simp only [Option.some.injEq] at he
      rw [← he]
      exact fun h => TxnError.noConfusion h
    | some d =>
      rw [hs] at he
      simp at he

theorem C6_Remove_unconditional_witness :
    (sampleAddr.Remove (sampleAddr.SetState AddressStateAllocated sampleStore).1).2 = none ∧
    sampleAddr.stored
      (sampleAddr.Remove (sampleAddr.SetState AddressStateAllocated sampleStore).1).1 = none :=
  ⟨((C6_Remove_unconditional sampleAddr
      (sampleAddr.SetState AddressStateAllocated sampleStore).1).2.2.1
      { sampleDoc with State := AddressStateAllocated } (by decide)).1,
   ((C6_Remove_unconditional sampleAddr
      (sampleAddr.SetState AddressStateAllocated sampleStore).1).2.2.1
      { sampleDoc with State := AddressStateAllocated } (by decide)).2.1⟩

/-! ## Lemmas on the matcher -/

theorem rmatch_fail (x : List Char) : Regex.fail.rmatch x = false := by
  induction x with
  | nil => rfl
  | cons c cs ih => exact ih

theorem rmatch_empty (x : List Char) : Regex.empty.rmatch x = true ↔ x = [] := by
  cases x with
  | nil => simp [Regex.rmatch, Regex.nullable]
  | cons c cs => simp [Regex.rmatch, Regex.deriv, rmatch_fail]

theorem rmatch_cls (R : List (Char × Char)) (x : List Char) :
    (Regex.cls R).rmatch x = true ↔ ∃ c, x = [c] ∧ inClass R c = true := by
  cases x with
  | nil => simp [Regex.rmatch, Regex.nullable]
  | cons c cs =>
    by_cases h : inClass R c = true
    · simp only [Regex.rmatch, Regex.deriv, h, if_true, rmatch_empty]
      constructor
      · intro hcs
        exact ⟨c, by rw [hcs], h⟩
      · rintro ⟨a, ha, _⟩
        exact (List.cons.inj ha).2
    · simp only [Regex.rmatch, Regex.deriv, h, if_false, rmatch_fail, Bool.false_eq_true,
        false_iff]
      rintro ⟨a, ha, hin⟩
      have hca : c = a := (List.cons.inj ha).1
      subst hca
      exact h hin

theorem rmatch_alt (r s : Regex) (x : List Char) :
    (Regex.alt r s).rmatch x = (r.rmatch x || s.rmatch x) := by
  induction x generalizing r s with
  | nil => rfl
  | cons c cs ih => exact ih _ _

theorem rmatch_seq (r s : Regex) (x : List Char) :
    (Regex.seq r s).rmatch x = true ↔
      ∃ t u, x = t ++ u ∧ r.rmatch t = true ∧ s.rmatch u = true := by
  induction x generalizing r with
  | nil =>
    simp only [Regex.rmatch, Regex.nullable, Bool.and_eq_true]
    constructor
    · rintro ⟨h1, h2⟩
      exact ⟨[], [], rfl, h1, h2⟩
    · rintro ⟨t, u, h, h1, h2⟩
      have ht : t = [] := (List.append_eq_nil.mp h.symm).1
      have hu : u = [] := (List.append_eq_nil.mp h.symm).2
      subst ht hu
      exact ⟨h1, h2⟩
  | cons c cs ih =>
    by_cases hn : r.nullable = true
    · have hd : (Regex.seq r s).rmatch (c :: cs) =
          ((Regex.seq (r.deriv c) s).rmatch cs || (s.deriv c).rmatch cs) := by
        simp only [Regex.rmatch, Regex.deriv, hn, if_true, rmatch_alt]
      rw [hd, Bool.or_eq_true, ih]
      constructor
      · rintro (⟨t, u, h, h1, h2⟩ | h)
        · exact ⟨c :: t, u, by rw [h]; rfl, h1, h2⟩
        · exact ⟨[], c :: cs, rfl, hn, h⟩
      · rintro ⟨t, u, h, h1, h2⟩
        cases t with
        | nil =>
          right
          have hu : u = c :: cs := h.symm
          subst hu
          exact h2
        | cons a t =>
          left
          have ha : c = a := (List.cons.inj h).1
          have hcs : cs = t ++ u := (List.cons.inj h).2
          subst ha
          exact ⟨t, u, hcs, h1, h2⟩
    · have hd : (Regex.seq r s).rmatch (c :: cs) = (Regex.seq (r.deriv c) s).rmatch cs := by
        simp only [Regex.rmatch, Regex.deriv, hn, Bool.false_eq_true, if_false]
      rw [hd, ih]
      constructor
      · rintro ⟨t, u, h, h1, h2⟩
        exact ⟨c :: t, u, by rw [h]; rfl, h1, h2⟩
      · rintro ⟨t, u, h, h1, h2⟩
        cases t with
        | nil => exact absurd h1 hn
        | cons a t =>
          have ha : c = a := (List.cons.inj h).1
          have hcs : cs = t ++ u := (List.cons.inj h).2
          subst ha
          exact ⟨t, u, hcs, h1, h2⟩

theorem rmatch_opt (r : Regex) (x : List Char) :
    (Regex.opt r).rmatch x = true ↔ x = [] ∨ r.rmatch x = true := by
  cases x with
  | nil => simp [Regex.rmatch, Regex.nullable]
  | cons c cs => simp [Regex.rmatch, Regex.deriv]

theorem rmatch_star_cls (R : List (Char × Char)) (x : List Char) :
    (Regex.star (Regex.cls R)).rmatch x = true ↔ ∀ c ∈ x, inClass R c = true := by
  induction x with
  | nil => simp [Regex.rmatch, Regex.nullable]
  | cons c cs ih =>
    have hd : (Regex.star (Regex.cls R)).rmatch (c :: cs) =
        (Regex.seq ((Regex.cls R).deriv c) (Regex.star (Regex.cls R))).rmatch cs := rfl
    rw [hd, rmatch_seq]
    by_cases h : inClass R c = true
    · simp only [Regex.deriv, h, if_true, rmatch_empty, List.mem_cons, forall_eq_or_imp,
        true_and]
      constructor
      · rintro ⟨t, u, hx, ht, hu⟩
        subst ht
        have hcs : cs = u := hx
        subst hcs
        exact ih.mp hu
      · intro hall
        exact ⟨[], cs, rfl, rfl, ih.mpr hall⟩
    · simp only [Regex.deriv, h, Bool.false_eq_true, if_false, rmatch_fail, false_and,
        and_false, exists_false, List.mem_cons, forall_eq_or_imp]

theorem inClass_lower (c : Char) : inClass lowerClass c = isLowerLetter c := by
  simp [inClass, lowerClass, isLowerLetter]

theorem inClass_lowerHyphen (c : Char) :
    inClass lowerHyphenClass c = (isLowerLetter c || c == '-') := by
  by_cases h : c = '-'
  · subst h
    decide
  · have h1 : ¬ ('-' ≤ c ∧ c ≤ '-') := fun hh => h (le_antisymm hh.2 hh.1)
    have h2 : (decide ('-' ≤ c) && decide (c ≤ '-')) = false := by
      simpa using h1
    have h3 : (c == '-') = false := by simpa using h
    simp only [inClass, lowerHyphenClass, isLowerLetter, List.any_cons, List.any_nil,
      Bool.or_false, h2, h3]

theorem rmatch_actionNameRule (x : List Char) :
    actionNameRule.rmatch x = true ↔
      ∃ c, isLowerLetter c = true ∧
        (x = [c] ∨ ∃ mid last, x = c :: (mid ++ [last]) ∧
          (∀ y ∈ mid, (isLowerLetter y || y == '-') = true) ∧ isLowerLetter last = true) := by
  unfold actionNameRule
  rw [rmatch_seq]
  constructor
  · rintro ⟨t, u, hx, ht, hu⟩
    obtain ⟨c, hc, hin⟩ := (rmatch_cls _ _).mp ht
    rw [inClass_lower] at hin
    refine ⟨c, hin, ?_⟩
    subst hc
    rcases (rmatch_opt _ _).mp hu with h | h
    · left
      rw [hx, h]
      rfl
    · right
      obtain ⟨mid, v, huv, hmid, hv⟩ := (rmatch_seq _ _ _).mp h
      obtain ⟨last, hl, hlin⟩ := (rmatch_cls _ _).mp hv
      rw [inClass_lower] at hlin
      refine ⟨mid, last, by rw [hx, huv, hl]; rfl, ?_, hlin⟩
      intro y hy
      have := (rmatch_star_cls _ _).mp hmid y hy
      rwa [inClass_lowerHyphen] at this
  · rintro ⟨c, hc, h⟩
    have hcl : inClass lowerClass c = true := by rw [inClass_lower]; exact hc
    refine ⟨[c], x.tail, ?_, (rmatch_cls _ _).mpr ⟨c, rfl, hcl⟩, ?_⟩
    · rcases h with h | ⟨mid, last, h, _, _⟩ <;> rw [h] <;> rfl
    · rw [rmatch_opt]
      rcases h with h | ⟨mid, last, h, hmid, hlast⟩
      · left
        rw [h]
        rfl
      · right
        rw [h, List.tail_cons, rmatch_seq]
        refine ⟨mid, [last], rfl, (rmatch_star_cls _ _).mpr ?_,
          (rmatch_cls _ _).mpr ⟨last, rfl, by rw [inClass_lower]; exact hlast⟩⟩
        intro y hy
        rw [inClass_lowerHyphen]
        exact hmid y hy

theorem validSpec_iff (s : String) :
    validActionNameSpec s = true ↔
      ∃ c, isLowerLetter c = true ∧
        (s.toList = [c] ∨ ∃ mid last, s.toList = c :: (mid ++ [last]) ∧
          (∀ y ∈ mid, (isLowerLetter y || y == '-') = true) ∧ isLowerLetter last = true) := by
  unfold validActionNameSpec
  cases hx : s.toList with
  | nil => simp
  | cons c cs =>
    simp only [Bool.and_eq_true]
    constructor
    · rintro ⟨⟨hall, hc⟩, hlast⟩
      refine ⟨c, hc, ?_⟩
      by_cases hcs : cs = []
      · left
        rw [hcs]
      · right
        refine ⟨cs.dropLast, cs.getLast hcs, by rw [List.dropLast_append_getLast], ?_, ?_⟩
        · intro y hy
          exact List.all_eq_true.mp hall y
            (List.mem_cons_of_mem _ (List.mem_of_mem_dropLast hy))
        · rw [List.getLast_cons hcs] at hlast
          exact hlast
    · rintro ⟨a, ha, h⟩
      rcases h with h | ⟨mid, last, h, hmid, hlast⟩
      · have hca : c = a := (List.cons.inj h).1
        have hcs : cs = [] := (List.cons.inj h).2
        subst hca hcs
        simp [ha]
      · have hca : c = a := (List.cons.inj h).1
        have hcs : cs = mid ++ [last] := (List.cons.inj h).2
        subst hca hcs
        refine ⟨⟨?_, ha⟩, ?_⟩
        · rw [List.all_eq_true]
          intro y hy
          rcases List.mem_cons.mp hy with hy | hy
          · rw [hy]
            simp [ha]
          · rcases List.mem_append.mp hy with hy | hy
            · exact hmid y hy
            · have : y = last := by simpa using hy
              rw [this]
              simp [hlast]
        · have hne : mid ++ [last] ≠ [] := by simp
          rw [List.getLast_cons hne, List.getLast_append_singleton]
          exact hlast

theorem MatchString_eq_spec (s : String) :
    actionNameRule.MatchString s = validActionNameSpec s := by
  rw [Bool.eq_iff_iff, validSpec_iff]
  exact rmatch_actionNameRule s.toList

/-! ## Claims on the `juju do` command -/

/-- C7: for a two-element argument list whose first element is a valid unit name, `Init`
succeeds if and only if the second element matches `actionNameRule`, which is the same as
being non-empty, made only of lowercase letters and hyphens, and beginning and ending with
a letter. On success the command holds the unit tag and the action name; on rejection the
error is the invalid-action-name error and the command is unchanged (`Init` has no access
to the API client, so nothing is dispatched). -/
theorem C7_Init_action_name (names : Names) (c : DoCommand) (unitName actionName : String)
    (hu : names.IsValidUnit unitName = true) :
    actionNameRule.MatchString actionName = validActionNameSpec actionName ∧
    ((c.Init names [unitName, actionName]).2 = none ↔
      actionNameRule.MatchString actionName = true) ∧
    (validActionNameSpec actionName = true →
      c.Init names [unitName, actionName] =
        ({ c with unitTag := { name := unitName }, actionName := actionName }, none)) ∧
    (validActionNameSpec actionName = false →
      c.Init names [unitName, actionName] =
        (c, some (Error.invalidActionName actionName))) := by
  refine ⟨MatchString_eq_spec actionName, ?_, ?_, ?_⟩
  · cases h : actionNameRule.MatchString actionName <;> simp [DoCommand.Init, hu, h]
  · intro h
    rw [← MatchString_eq_spec] at h
    simp [DoCommand.Init, hu, h]
  · intro h
    rw [← MatchString_eq_spec] at h
    simp [DoCommand.Init, hu, h]

theorem C7_Init_action_name_witness :
    sampleNames.IsValidUnit "mysql/3" = true ∧
    sampleCmd.Init sampleNames ["mysql/3", "backup"] = (sampleCmdReady, none) ∧
    sampleCmd.Init sampleNames ["mysql/3", "Backup!"] =
      (sampleCmd, some (Error.invalidActionName "Backup!")) ∧
    sampleCmd.Init sampleNames ["mysql/3", "a-"] =
      (sampleCmd, some (Error.invalidActionName "a-")) :=
  ⟨by decide,
   (C7_Init_action_name sampleNames sampleCmd "mysql/3" "backup" (by decide)).2.2.1 (by decide),
   (C7_Init_action_name sampleNames sampleCmd "mysql/3" "Backup!" (by decide)).2.2.2
     (by decide),
   (C7_Init_action_name sampleNames sampleCmd "mysql/3" "a-" (by decide)).2.2.2 (by decide)⟩

theorem Run_eval (c : DoCommand) (env : RunEnv) (api : APIClient)
    (p : List (String × Value)) (hapi : env.NewActionAPIClient = Except.ok api)
    (hp : c.actionParams env = Except.ok p) :
    c.Run env =
      DoCommand.afterEnqueue env [c.actionParam env p] (api.Enqueue (c.actionParam env p)).1
        (api.Enqueue (c.actionParam env p)).2 := by
  unfold DoCommand.Run
  rw [hapi]
  dsimp only
  rw [hp]

/-- C8 (as stated, refuted): `Enqueue` returns exactly one result, with no error and an
action reference whose tag does not parse; `Run` returns the parser's error, which is not
the error "action failed to enqueue". -/
theorem C8_unparsable_tag_returns_parse_error :
    (sampleEnv [{ Action := some (actionRef "bogus"), Error := none }]).names.ParseActionTag
        (actionRef "bogus").Tag = Except.error (Error.external "not a valid action tag") ∧
    (sampleCmdReady.Run
        (sampleEnv [{ Action := some (actionRef "bogus"), Error := none }])).err =
      some (Error.external "not a valid action tag") ∧
    (sampleCmdReady.Run
        (sampleEnv [{ Action := some (actionRef "bogus"), Error := none }])).err ≠
      some (Error.new "action failed to enqueue") :=
  ⟨rfl, by decide, by decide⟩

/-- C8 (amended): whenever `Enqueue` returns exactly one result and no call error: if the
result carries an error, `Run` returns exactly that error; if it carries no error and no
action reference, `Run` fails with "action failed to enqueue"; if it carries no error and
a reference whose tag does not parse, `Run` fails with the error of `ParseActionTag`; in
none of these cases is any output written. -/
theorem C8_single_result (c : DoCommand) (env : RunEnv) (api : APIClient)
    (p : List (String × Value)) (result : ActionResult)
    (hapi : env.NewActionAPIClient = Except.ok api)
    (hp : c.actionParams env = Except.ok p)
    (hr : api.Enqueue (c.actionParam env p) = ({ Results := [result] }, none)) :
    (∀ e, result.Error = some e →
      (c.Run env).err = some (Error.remote e) ∧ (c.Run env).written = []) ∧
    (result.Error = none → result.Action = none →
      (c.Run env).err = some (Error.new "action failed to enqueue") ∧
      (c.Run env).written = []) ∧
    (∀ a e, result.Error = none → result.Action = some a →
      env.names.ParseActionTag a.Tag = Except.error e →
      (c.Run env).err = some e ∧ (c.Run env).written = []) := by
  rw [Run_eval c env api p hapi hp, hr]
  refine ⟨?_, ?_, ?_⟩
  · intro e he
    simp [DoCommand.afterEnqueue, he]
  · intro he ha
    simp [DoCommand.afterEnqueue, he, ha]
  · intro a e he ha hparse
    simp [DoCommand.afterEnqueue, he, ha, hparse]

theorem C8_single_result_witness :
    (sampleCmdReady.Run (sampleEnv [deniedResult])).err =
      some (Error.remote permissionDenied) ∧
    (sampleCmdReady.Run (sampleEnv [deniedResult])).written =
      [] :=
  (C8_single_result sampleCmdReady
    (sampleEnv [deniedResult])
    { Enqueue := fun _ => ({ Results := [deniedResult] },
        none) }
    [] _ rfl rfl rfl).1 _ rfl

/-- C9: whenever `Enqueue` returns without a call error a result list that does not have
exactly one element (the empty list, or two or more results), `Run` returns the error
"illegal number of results returned", which differs from every per-action error; no
element of the list is indexed (no panic) and no output is written. -/
theorem C9_result_count_mismatch (c : DoCommand) (env : RunEnv) (api : APIClient)
    (p : List (String × Value)) (results : ActionResults)
    (hapi : env.NewActionAPIClient = Except.ok api)
    (hp : c.actionParams env = Except.ok p)
    (hr : api.Enqueue (c.actionParam env p) = (results, none))
    (hn : results.Results.length ≠ 1) :
    (c.Run env).err = some (Error.new "illegal number of results returned") ∧
    (c.Run env).written = [] ∧
    (c.Run env).panicked = false ∧
    ∀ e : ParamsError, Error.new "illegal number of results returned" ≠ Error.remote e := by
  rw [Run_eval c env api p hapi hp, hr]
  simp [DoCommand.afterEnqueue, hn]

theorem C9_result_count_mismatch_witness :
    (sampleCmdReady.Run (sampleEnv [])).err =
      some (Error.new "illegal number of results returned") ∧
    (sampleCmdReady.Run (sampleEnv twoResults)).written = [] ∧
    (sampleCmdReady.Run (sampleEnv twoResults)).panicked = false :=
  ⟨(C9_result_count_mismatch sampleCmdReady (sampleEnv [])
      { Enqueue := fun _ => ({ Results := [] }, none) } [] _ rfl rfl rfl (by decide)).1,
   (C9_result_count_mismatch sampleCmdReady (sampleEnv twoResults)
      { Enqueue := fun _ => ({ Results := twoResults }, none) } [] _ rfl rfl rfl
      (by decide)).2.1,
   (C9_result_count_mismatch sampleCmdReady (sampleEnv twoResults)
      { Enqueue := fun _ => ({ Results := twoResults }, none) } [] _ rfl rfl rfl
      (by decide)).2.2.1⟩

/-! ## Claim on the service facade client -/

/-- C10: for every service name and credential bytes, `SetMetricCredentials` issues
exactly one facade call, named "SetMetricCredentials", whose argument holds exactly one
entry with that name and those bytes; it returns no error when the reply is a single
result without error, and the error of the result when the single result carries one
(also when the facade call itself returns that error, as the patched call of the failing
test does). -/
theorem C10_SetMetricCredentials
    (reply : String → ServiceMetricCredentials → ErrorResults × Option Error)
    (name : String) (creds : List UInt8) (log : List (String × ServiceMetricCredentials)) :
    (Client.SetMetricCredentials (recordingFacade reply) name creds log).1 =
      log ++ [("SetMetricCredentials",
        { Creds := [{ ServiceName := name, MetricCredentials := creds }] })] ∧
    (reply "SetMetricCredentials"
        { Creds := [{ ServiceName := name, MetricCredentials := creds }] } =
        ({ Results := [{ Error := none }] }, none) →
      (Client.SetMetricCredentials (recordingFacade reply) name creds log).2 = none) ∧
    (∀ e, reply "SetMetricCredentials"
        { Creds := [{ ServiceName := name, MetricCredentials := creds }] } =
        ({ Results := [{ Error := some e }] }, none) →
      (Client.SetMetricCredentials (recordingFacade reply) name creds log).2 =
        some (Error.remote e)) ∧
    (∀ e, reply "SetMetricCredentials"
        { Creds := [{ ServiceName := name, MetricCredentials := creds }] } =
        ({ Results := [{ Error := some e }] }, some (Error.remote e)) →
      (Client.SetMetricCredentials (recordingFacade reply) name creds log).2 =
        some (Error.remote e)) := by
  refine ⟨?_, ?_, ?_, ?_⟩
  · unfold Client.SetMetricCredentials recordingFacade
    dsimp only
    split <;> rfl
  · intro h
    simp [Client.SetMetricCredentials, recordingFacade, h, ErrorResults.OneError]
  · intro e h
    simp [Client.SetMetricCredentials, recordingFacade, h, ErrorResults.OneError]
  · intro e h
    simp [Client.SetMetricCredentials, recordingFacade, h]

theorem C10_SetMetricCredentials_witness :
    Client.SetMetricCredentials
        (recordingFacade (fun _ _ => ({ Results := [{ Error := none }] }, none)))
        "serviceA" creds1 [] =
      ([("SetMetricCredentials",
          { Creds := [{ ServiceName := "serviceA", MetricCredentials := creds1 }] })], none) ∧
    (Client.SetMetricCredentials
        (recordingFacade (fun _ _ => ({ Results := [{ Error := some permissionDenied }] }, none)))
        "service" creds1 []).2 = some (Error.remote permissionDenied) ∧
    permissionDenied.Message = "permission denied" :=
  ⟨Prod.ext
    (C10_SetMetricCredentials (fun _ _ => ({ Results := [{ Error := none }] }, none))
      "serviceA" creds1 []).1
    ((C10_SetMetricCredentials (fun _ _ => ({ Results := [{ Error := none }] }, none))
      "serviceA" creds1 []).2.1 rfl),
   (C10_SetMetricCredentials
      (fun _ _ => ({ Results := [{ Error := some permissionDenied }] }, none))
      "service" creds1 []).2.2.1 permissionDenied rfl,
   rfl⟩

end Juju
